import Mathlib

/-!
# Verification of the learned_optimization custom-optimizer tutorial

Shallow embedding of `docs/notebooks/Part6_custom_learned_optimizers.ipynb`.

The notebook defines three example learned optimizers (`MetaSGDWD`,
`PerParamMLP`, `HParamControllerLOPT`).  Parameters/gradients are JAX pytrees
of numeric arrays; we model a pytree as a finitely-branching tree whose leaves
are lists of rationals (an array modelled by its flattened contents; a shape
is modelled by the leaf's length).  `jax.tree_map` over several trees requires
identical tree structure and raises otherwise, which we model by `Option`.

The external functions the notebook delegates to (`jnp.exp`, `jnp.log`, the
Haiku MLP and LSTM) are taken as abstract function arguments: the embedded
definitions are parametric in them, exactly as the notebook code is parametric
in the library implementations it calls.
-/

mutual
/-- A JAX pytree: a nested structure whose leaves are arrays, an array being
modelled as the list of its scalar entries. -/
inductive PyTree (α : Type) where
  | leaf : α → PyTree α
  | node : PyTreeList α → PyTree α
inductive PyTreeList (α : Type) where
  | nil : PyTreeList α
  | cons : PyTree α → PyTreeList α → PyTreeList α
end

/-- Combine two lists elementwise; `none` when the lengths differ
(models elementwise array arithmetic on arrays of matching shape). -/
def zipSame {α β γ : Type} (f : α → β → γ) : List α → List β → Option (List γ)
  | [], [] => some []
  | a :: as, b :: bs => (zipSame f as bs).map (fun cs => f a b :: cs)
  | _, _ => none

/-- Combine three lists elementwise; `none` when the lengths differ. -/
def zip3Same {α β γ δ : Type} (f : α → β → γ → δ) :
    List α → List β → List γ → Option (List δ)
  | [], [], [] => some []
  | a :: as, b :: bs, c :: cs =>
      (zip3Same f as bs cs).map (fun ds => f a b c :: ds)
  | _, _, _ => none

mutual
/-- `jax.tree_map` with one tree argument. -/
def pyMap {α β : Type} (f : α → β) : PyTree α → PyTree β
  | .leaf a => .leaf (f a)
  | .node ts => .node (pyListMap f ts)
def pyListMap {α β : Type} (f : α → β) : PyTreeList α → PyTreeList β
  | .nil => .nil
  | .cons t ts => .cons (pyMap f t) (pyListMap f ts)
end

mutual
/-- `jax.tree_map` with two tree arguments: the leaf combiner may itself fail
(shape mismatch), and a structure mismatch between the two trees fails. -/
def pyMap2 {α β γ : Type} (f : α → β → Option γ) :
    PyTree α → PyTree β → Option (PyTree γ)
  | .leaf a, .leaf b => (f a b).map .leaf
  | .node ts, .node us => (pyListMap2 f ts us).map .node
  | _, _ => none
def pyListMap2 {α β γ : Type} (f : α → β → Option γ) :
    PyTreeList α → PyTreeList β → Option (PyTreeList γ)
  | .nil, .nil => some .nil
  | .cons t ts, .cons u us =>
      match pyMap2 f t u, pyListMap2 f ts us with
      | some v, some vs => some (.cons v vs)
      | _, _ => none
  | _, _ => none
end

mutual
/-- `jax.tree_map` with three tree arguments. -/
def pyMap3 {α β γ δ : Type} (f : α → β → γ → Option δ) :
    PyTree α → PyTree β → PyTree γ → Option (PyTree δ)
  | .leaf a, .leaf b, .leaf c => (f a b c).map .leaf
  | .node ts, .node us, .node vs => (pyListMap3 f ts us vs).map .node
  | _, _, _ => none
def pyListMap3 {α β γ δ : Type} (f : α → β → γ → Option δ) :
    PyTreeList α → PyTreeList β → PyTreeList γ → Option (PyTreeList δ)
  | .nil, .nil, .nil => some .nil
  | .cons t ts, .cons u us, .cons v vs =>
      match pyMap3 f t u v, pyListMap3 f ts us vs with
      | some w, some ws => some (.cons w ws)
      | _, _ => none
  | _, _, _ => none
end

/-- The tree of array shapes (a shape modelled by the array's length). -/
def shapeOf {α : Type} (t : PyTree (List α)) : PyTree Nat :=
  pyMap List.length t

mutual
/-- All scalar entries of a pytree, in depth-first order. -/
def pyFlat {α : Type} : PyTree (List α) → List α
  | .leaf xs => xs
  | .node ts => pyListFlat ts
def pyListFlat {α : Type} : PyTreeList (List α) → List α
  | .nil => []
  | .cons t ts => pyFlat t ++ pyListFlat ts
end

/-! ## MetaSGDWD (notebook cells 3–7)

```python
@flax.struct.dataclass
class LOptState:
  params: Any
  model_state: Any
  iteration: jnp.ndarray
```
-/

/-- A concrete pytree of rational-valued arrays. -/
abbrev ParamTree := PyTree (List ℚ)

/-- `LOptState`: the inner-optimizer state of `MetaSGDWD`.  In the notebook
`model_state` defaults to `None` and may hold arbitrary opaque data, modelled
by `Option M`.  `iteration` is an `int32` scalar counter. -/
structure LOptState (M : Type) where
  params : ParamTree
  model_state : Option M
  iteration : Int

/-- `MetaSGDWD.__init__(initial_lr=1e-3, initial_wd=1e-2)`. -/
structure MetaSGDWD where
  initial_lr : ℚ
  initial_wd : ℚ

/-- The meta-parameters `theta` of `MetaSGDWD`:
`{"log_lr": ..., "log_wd": ...}`. -/
structure MetaSGDWDTheta where
  log_lr : ℚ
  log_wd : ℚ

/-- `MetaSGDWD.init(key)`: `jnp.log` is the abstract `log`; the PRNG `key`
(of arbitrary type `K`) is accepted and unused, as in the notebook. -/
def MetaSGDWD.init {K : Type} (self : MetaSGDWD) (log : ℚ → ℚ) (key : K) :
    MetaSGDWDTheta :=
  ⟨log self.initial_lr, log self.initial_wd⟩

/-- `MetaSGDWD._Opt.init(params, model_state=None)`. -/
def MetaSGDWD.Opt.init {M : Type} (params : ParamTree)
    (model_state : Option M) : LOptState M :=
  ⟨params, model_state, 0⟩

/-- `MetaSGDWD._Opt.update(opt_state, grads, model_state=None)` with
`jnp.exp` abstracted as `exp`:

```python
lr = jnp.exp(theta["log_lr"])
wd = jnp.exp(theta["log_wd"])
def _update_one(p, g):
  return p - g * lr - p * wd
next_params = jax.tree_map(_update_one, opt_state.params, grads)
return LOptState(params=next_params, model_state=model_state,
                 iteration=opt_state.iteration + 1)
```
-/
def MetaSGDWD.Opt.update {M : Type} (exp : ℚ → ℚ) (theta : MetaSGDWDTheta)
    (opt_state : LOptState M) (grads : ParamTree) (model_state : Option M) :
    Option (LOptState M) :=
  let lr := exp theta.log_lr
  let wd := exp theta.log_wd
  let upd := fun (p g : ℚ) => p - g * lr - p * wd
  match pyMap2 (zipSame upd) opt_state.params grads with
  | some next_params => some ⟨next_params, model_state, opt_state.iteration + 1⟩
  | none => none

/-! ## PerParamMLP (notebook cells 9–16)

```python
@flax.struct.dataclass
class PerParamState:
  params: Any
  model_state: Any
  iteration: jnp.ndarray
  momentums: Any
```
-/

/-- `PerParamState`: the inner-optimizer state of `PerParamMLP`. -/
structure PerParamState (M : Type) where
  params : ParamTree
  model_state : Option M
  iteration : Int
  momentums : ParamTree

/-- `PerParamMLP.__init__(decay=0.9, hidden_size=64)`. -/
structure PerParamMLP where
  decay : ℚ
  hidden_size : Nat

/-- The per-scalar body of `PerParamMLP`'s `forward(grads, momentum, params)`.
The Haiku MLP `hk.nets.MLP([hidden_size, 2])` together with its weights
`theta["nn"]` is abstracted as `nn`, acting on one feature vector; the
features are stacked in the order `[params, momentum, grads]` and the MLP
treats all array dimensions as batch, i.e. it acts on each scalar position
independently.  `outs[..., 0]` is `scale`, `outs[..., 1]` is `mag`, and the
step is `scale * 0.01 * jnp.exp(mag * 0.01)` (`jnp.exp` abstracted as `exp`).
-/
def PerParamMLP.netApply (nn : ℚ → ℚ → ℚ → ℚ × ℚ) (exp : ℚ → ℚ)
    (grads momentum params : ℚ) : ℚ :=
  let outs := nn params momentum grads
  let scale := outs.1
  let mag := outs.2
  scale * (1 / 100) * exp (mag * (1 / 100))

/-- `PerParamMLP._Opt.init(params, model_state=None)`:
`momentums = jax.tree_map(jnp.zeros_like, params)`. -/
def PerParamMLP.Opt.init {M : Type} (params : ParamTree)
    (model_state : Option M) : PerParamState M :=
  ⟨params, model_state, 0,
   pyMap (fun xs => xs.map (fun _ => (0 : ℚ))) params⟩

/-- `PerParamMLP._Opt.update(opt_state, grads, model_state=None)`:

```python
def _update_one_momentum(m, g):
  return m * parent.decay + (g * (1 - parent.decay))
next_moms = jax.tree_map(_update_one_momentum, opt_state.momentums, grads)
def _update_one(g, m, p):
  step = parent.net.apply(theta["nn"], g, m, p)
  return p - step
next_params = jax.tree_map(_update_one, opt_state.params, grads, next_moms)
```

Note the positional binding in the second `tree_map`: `_update_one`'s first
argument `g` receives a leaf of `opt_state.params`, `m` a leaf of `grads`,
and `p` a leaf of `next_moms`, exactly as the call is written. -/
def PerParamMLP.Opt.update {M : Type} (self : PerParamMLP)
    (nn : ℚ → ℚ → ℚ → ℚ × ℚ) (exp : ℚ → ℚ)
    (opt_state : PerParamState M) (grads : ParamTree)
    (model_state : Option M) : Option (PerParamState M) :=
  let updMom := fun (m g : ℚ) => m * self.decay + g * (1 - self.decay)
  match pyMap2 (zipSame updMom) opt_state.momentums grads with
  | none => none
  | some next_moms =>
    let upd1 := fun (g m p : ℚ) => p - PerParamMLP.netApply nn exp g m p
    match pyMap3 (zip3Same upd1) opt_state.params grads next_moms with
    | none => none
    | some next_params =>
        some ⟨next_params, model_state, opt_state.iteration + 1, next_moms⟩

/-! ## HParamControllerLOPT (notebook cells 18–24)

```python
@flax.struct.dataclass
class HParamControllerInnerOptState:
  params: Any
  model_state: Any
  iteration: Any
  rnn_hidden_state: Any
```
-/

/-- `HParamControllerInnerOptState`; the RNN hidden state has the opaque
type `H`. -/
structure HParamControllerInnerOptState (M H : Type) where
  params : ParamTree
  model_state : Option M
  iteration : Int
  rnn_hidden_state : H

/-- The meta-parameters `theta` of `HParamControllerLOPT`:
`{"rnn_params": ..., "initial_rnn_hidden_state": ...}` where `rnn_params`
are the Haiku weights of `forward_fn` (opaque type `RP`). -/
structure HParamTheta (RP H : Type) where
  rnn_params : RP
  initial_rnn_hidden_state : H

/-- `forward_fn(hidden_state, input)`:

```python
output, next_state = mod(input, hidden_state)   # mod = hk.LSTM(128)
log_lr = hk.Linear(1)(output)
return next_state, jnp.exp(log_lr) * 0.01
```

The LSTM cell with its weights is abstracted as `lstm` (taking the input
then the hidden state, returning the output and the next hidden state);
`hk.Linear(1)` with its weights is `linear`; `jnp.exp` is `exp`.  The input
is the loss reshaped to `[1, 1]`, a single scalar, so the cell is modelled
at the scalar level. -/
def forward_fn {H : Type} (exp : ℚ → ℚ) (lstm : ℚ → H → ℚ × H)
    (linear : ℚ → ℚ) (hidden_state : H) (input : ℚ) : H × ℚ :=
  let out := lstm input hidden_state
  let log_lr := linear out.1
  (out.2, exp log_lr * (1 / 100))

/-- `HParamControllerLOPT._Opt.init(params, model_state=None)`: copies the
meta-learned `theta["initial_rnn_hidden_state"]` into the inner state. -/
def HParamControllerLOPT.Opt.init {M RP H : Type} (theta : HParamTheta RP H)
    (params : ParamTree) (model_state : Option M) :
    HParamControllerInnerOptState M H :=
  ⟨params, model_state, 0, theta.initial_rnn_hidden_state⟩

/-- `HParamControllerLOPT._Opt.update(opt_state, grads, loss=None,
model_state=None)`:

```python
assert loss is not None
batched_loss = jnp.reshape(loss, [1, 1])
next_rnn_state, lr = rnn_forward(theta["rnn_params"],
                                 opt_state.rnn_hidden_state, batched_loss)
def update_one(p, g):
  return p - g * lr
next_params = jax.tree_map(update_one, opt_state.params, grads)
```

The failed assertion on `loss is None` is modelled as `none`.  The weights
`theta["rnn_params"]` enter through the abstract `lstm`/`linear` functions
of `forward_fn`. -/
def HParamControllerLOPT.Opt.update {M H : Type} (exp : ℚ → ℚ)
    (lstm : ℚ → H → ℚ × H) (linear : ℚ → ℚ)
    (opt_state : HParamControllerInnerOptState M H) (grads : ParamTree)
    (loss : Option ℚ) (model_state : Option M) :
    Option (HParamControllerInnerOptState M H) :=
  match loss with
  | none => none
  | some l =>
    let r := forward_fn exp lstm linear opt_state.rnn_hidden_state l
    let lr := r.2
    let upd1 := fun (p g : ℚ) => p - g * lr
    match pyMap2 (zipSame upd1) opt_state.params grads with
    | none => none
    | some next_params =>
        some ⟨next_params, model_state, opt_state.iteration + 1, r.1⟩

/-! ## Structural lemmas about pytrees -/

/-- The list-level companion of `shapeOf`. -/
def shapeOfL {α : Type} (ts : PyTreeList (List α)) : PyTreeList Nat :=
  pyListMap List.length ts

theorem shapeOf_leaf {α : Type} (xs : List α) :
    shapeOf (.leaf xs) = .leaf xs.length := rfl

theorem shapeOf_node {α : Type} (ts : PyTreeList (List α)) :
    shapeOf (.node ts) = .node (shapeOfL ts) := rfl

theorem shapeOfL_nil {α : Type} : shapeOfL (α := α) .nil = .nil := rfl

theorem shapeOfL_cons {α : Type} (t : PyTree (List α))
    (ts : PyTreeList (List α)) :
    shapeOfL (.cons t ts) = .cons (shapeOf t) (shapeOfL ts) := rfl

theorem zipSame_eq_some {α β γ : Type} (f : α → β → γ) :
    ∀ (xs : List α) (ys : List β), xs.length = ys.length →
      zipSame f xs ys = some (List.zipWith f xs ys)
  | [], [], _ => rfl
  | [], _ :: _, h => by simp at h
  | _ :: _, [], h => by simp at h
  | a :: as, b :: bs, h => by
      simp only [List.length_cons, Nat.succ.injEq] at h
      simp [zipSame, zipSame_eq_some f as bs h, List.zipWith]

theorem zip3Same_eq_some {α β γ δ : Type} (f : α → β → γ → δ) :
    ∀ (xs : List α) (ys : List β) (zs : List γ),
      xs.length = ys.length → ys.length = zs.length →
      zip3Same f xs ys zs = some (List.zipWith3 f xs ys zs)
  | [], [], [], _, _ => rfl
  | [], _ :: _, _, h, _ => by simp at h
  | _ :: _, [], _, h, _ => by simp at h
  | _ :: _, _ :: _, [], _, h => by simp at h
  | [], [], _ :: _, _, h => by simp at h
  | a :: as, b :: bs, c :: cs, h1, h2 => by
      simp only [List.length_cons, Nat.succ.injEq] at h1 h2
      simp [zip3Same, zip3Same_eq_some f as bs cs h1 h2, List.zipWith3]

theorem zipWith3_append {α β γ δ : Type} (f : α → β → γ → δ) :
    ∀ (l1 : List α) (l2 : List β) (l3 : List γ) (m1 : List α) (m2 : List β)
      (m3 : List γ), l1.length = l2.length → l2.length = l3.length →
      List.zipWith3 f (l1 ++ m1) (l2 ++ m2) (l3 ++ m3) =
        List.zipWith3 f l1 l2 l3 ++ List.zipWith3 f m1 m2 m3
  | [], [], [], _, _, _, _, _ => rfl
  | [], _ :: _, _, _, _, _, h, _ => by simp at h
  | _ :: _, [], _, _, _, _, h, _ => by simp at h
  | _ :: _, _ :: _, [], _, _, _, _, h => by simp at h
  | [], [], _ :: _, _, _, _, _, h => by simp at h
  | a :: as, b :: bs, c :: cs, m1, m2, m3, h1, h2 => by
      simp only [List.length_cons, Nat.succ.injEq] at h1 h2
      simp [List.zipWith3, zipWith3_append f as bs cs m1 m2 m3 h1 h2]

mutual
theorem pyFlat_length_eq {α β : Type} :
    ∀ (a : PyTree (List α)) (b : PyTree (List β)),
      shapeOf a = shapeOf b → (pyFlat a).length = (pyFlat b).length
  | .leaf xs, .leaf ys, h => by
      simp only [shapeOf_leaf, PyTree.leaf.injEq] at h
      simpa [pyFlat] using h
  | .leaf _, .node _, h => by simp [shapeOf_leaf, shapeOf_node] at h
  | .node _, .leaf _, h => by simp [shapeOf_leaf, shapeOf_node] at h
  | .node ts, .node us, h => by
      simp only [shapeOf_node, PyTree.node.injEq] at h
      simpa [pyFlat] using pyListFlat_length_eq ts us h
theorem pyListFlat_length_eq {α β : Type} :
    ∀ (ts : PyTreeList (List α)) (us : PyTreeList (List β)),
      shapeOfL ts = shapeOfL us → (pyListFlat ts).length = (pyListFlat us).length
  | .nil, .nil, _ => rfl
  | .nil, .cons _ _, h => by simp [shapeOfL_nil, shapeOfL_cons] at h
  | .cons _ _, .nil, h => by simp [shapeOfL_nil, shapeOfL_cons] at h
  | .cons t ts, .cons u us, h => by
      simp only [shapeOfL_cons, PyTreeList.cons.injEq] at h
      simp only [pyListFlat, List.length_append]
      rw [pyFlat_length_eq t u h.1, pyListFlat_length_eq ts us h.2]
end

mutual
/-- `jax.tree_map` over two trees of arrays of identical structure succeeds,
preserves the structure, and acts elementwise. -/
theorem pyMap2_zipSame_some {α β γ : Type} (f : α → β → γ) :
    ∀ (a : PyTree (List α)) (b : PyTree (List β)), shapeOf a = shapeOf b →
      ∃ c, pyMap2 (zipSame f) a b = some c ∧ shapeOf c = shapeOf a ∧
        pyFlat c = List.zipWith f (pyFlat a) (pyFlat b)
  | .leaf xs, .leaf ys, h => by
      simp only [shapeOf_leaf, PyTree.leaf.injEq] at h
      refine ⟨.leaf (List.zipWith f xs ys), ?_, ?_, rfl⟩
      · simp [pyMap2, zipSame_eq_some f xs ys h]
      · simp [shapeOf_leaf, List.length_zipWith, h]
  | .leaf _, .node _, h => by simp [shapeOf_leaf, shapeOf_node] at h
  | .node _, .leaf _, h => by simp [shapeOf_leaf, shapeOf_node] at h
  | .node ts, .node us, h => by
      simp only [shapeOf_node, PyTree.node.injEq] at h
      obtain ⟨vs, hsome, hshape, hflat⟩ := pyListMap2_zipSame_some f ts us h
      refine ⟨.node vs, ?_, ?_, ?_⟩
      · simp [pyMap2, hsome]
      · simp [shapeOf_node, hshape]
      · simpa [pyFlat] using hflat
theorem pyListMap2_zipSame_some {α β γ : Type} (f : α → β → γ) :
    ∀ (ts : PyTreeList (List α)) (us : PyTreeList (List β)),
      shapeOfL ts = shapeOfL us →
      ∃ vs, pyListMap2 (zipSame f) ts us = some vs ∧ shapeOfL vs = shapeOfL ts ∧
        pyListFlat vs = List.zipWith f (pyListFlat ts) (pyListFlat us)
  | .nil, .nil, _ => ⟨.nil, rfl, rfl, rfl⟩
  | .nil, .cons _ _, h => by simp [shapeOfL_nil, shapeOfL_cons] at h
  | .cons _ _, .nil, h => by simp [shapeOfL_nil, shapeOfL_cons] at h
  | .cons t ts, .cons u us, h => by
      simp only [shapeOfL_cons, PyTreeList.cons.injEq] at h
      obtain ⟨v, hv, hvshape, hvflat⟩ := pyMap2_zipSame_some f t u h.1
      obtain ⟨vs, hvs, hvsshape, hvsflat⟩ := pyListMap2_zipSame_some f ts us h.2
      refine ⟨.cons v vs, ?_, ?_, ?_⟩
      · simp [pyListMap2, hv, hvs]
      · simp [shapeOfL_cons, hvshape, hvsshape]
      · simp only [pyListFlat, hvflat, hvsflat]
        rw [List.zipWith_append _ _ _ _ _ (pyFlat_length_eq t u h.1)]
end

theorem length_zipWith3 {α β γ δ : Type} (f : α → β → γ → δ) :
    ∀ (xs : List α) (ys : List β) (zs : List γ), xs.length = ys.length →
      ys.length = zs.length → (List.zipWith3 f xs ys zs).length = xs.length
  | [], [], [], _, _ => rfl
  | [], _ :: _, _, h, _ => by simp at h
  | _ :: _, [], _, h, _ => by simp at h
  | _ :: _, _ :: _, [], _, h => by simp at h
  | [], [], _ :: _, _, h => by simp at h
  | a :: as, b :: bs, c :: cs, h1, h2 => by
      simp only [List.length_cons, Nat.succ.injEq] at h1 h2
      simp [List.zipWith3, length_zipWith3 f as bs cs h1 h2]

mutual
/-- `jax.tree_map` over three trees of arrays of identical structure
succeeds, preserves the structure, and acts elementwise. -/
theorem pyMap3_zip3Same_some {α β γ δ : Type} (f : α → β → γ → δ) :
    ∀ (a : PyTree (List α)) (b : PyTree (List β)) (c : PyTree (List γ)),
      shapeOf a = shapeOf b → shapeOf b = shapeOf c →
      ∃ d, pyMap3 (zip3Same f) a b c = some d ∧ shapeOf d = shapeOf a ∧
        pyFlat d = List.zipWith3 f (pyFlat a) (pyFlat b) (pyFlat c)
  | .leaf xs, .leaf ys, .leaf zs, h1, h2 => by
      simp only [shapeOf_leaf, PyTree.leaf.injEq] at h1 h2
      refine ⟨.leaf (List.zipWith3 f xs ys zs), ?_, ?_, rfl⟩
      · simp [pyMap3, zip3Same_eq_some f xs ys zs h1 h2]
      · simp [shapeOf_leaf, length_zipWith3 f xs ys zs h1 h2]
  | .leaf _, .node _, _, h1, _ => by simp [shapeOf_leaf, shapeOf_node] at h1
  | .node _, .leaf _, _, h1, _ => by simp [shapeOf_leaf, shapeOf_node] at h1
  | .leaf _, .leaf _, .node _, _, h2 => by
      simp [shapeOf_leaf, shapeOf_node] at h2
  | .node _, .node _, .leaf _, _, h2 => by
      simp [shapeOf_leaf, shapeOf_node] at h2
  | .node ts, .node us, .node vs, h1, h2 => by
      simp only [shapeOf_node, PyTree.node.injEq] at h1 h2
      obtain ⟨ws, hsome, hshape, hflat⟩ := pyListMap3_zip3Same_some f ts us vs h1 h2
      refine ⟨.node ws, ?_, ?_, ?_⟩
      · simp [pyMap3, hsome]
      · simp [shapeOf_node, hshape]
      · simpa [pyFlat] using hflat
theorem pyListMap3_zip3Same_some {α β γ δ : Type} (f : α → β → γ → δ) :
    ∀ (ts : PyTreeList (List α)) (us : PyTreeList (List β))
      (vs : PyTreeList (List γ)),
      shapeOfL ts = shapeOfL us → shapeOfL us = shapeOfL vs →
      ∃ ws, pyListMap3 (zip3Same f) ts us vs = some ws ∧
        shapeOfL ws = shapeOfL ts ∧
        pyListFlat ws =
          List.zipWith3 f (pyListFlat ts) (pyListFlat us) (pyListFlat vs)
  | .nil, .nil, .nil, _, _ => ⟨.nil, rfl, rfl, rfl⟩
  | .nil, .cons _ _, _, h1, _ => by simp [shapeOfL_nil, shapeOfL_cons] at h1
  | .cons _ _, .nil, _, h1, _ => by simp [shapeOfL_nil, shapeOfL_cons] at h1
  | .nil, .nil, .cons _ _, _, h2 => by simp [shapeOfL_nil, shapeOfL_cons] at h2
  | .cons _ _, .cons _ _, .nil, _, h2 => by
      simp [shapeOfL_nil, shapeOfL_cons] at h2
  | .cons t ts, .cons u us, .cons v vs, h1, h2 => by
      simp only [shapeOfL_cons, PyTreeList.cons.injEq] at h1 h2
      obtain ⟨w, hw, hwshape, hwflat⟩ := pyMap3_zip3Same_some f t u v h1.1 h2.1
      obtain ⟨ws, hws, hwsshape, hwsflat⟩ :=
        pyListMap3_zip3Same_some f ts us vs h1.2 h2.2
      refine ⟨.cons w ws, ?_, ?_, ?_⟩
      · simp [pyListMap3, hw, hws]
      · simp [shapeOfL_cons, hwshape, hwsshape]
      · simp only [pyListFlat, hwflat, hwsflat]
        rw [zipWith3_append f _ _ _ _ _ _ (pyFlat_length_eq t u h1.1)
          (pyFlat_length_eq u v h2.1)]
end

mutual
/-- Mapping a function over every entry of every array of a pytree acts as
`List.map` on the flattened entries. -/
theorem pyFlat_pyMap_map {α β : Type} (g : α → β) :
    ∀ t : PyTree (List α),
      pyFlat (pyMap (fun xs => List.map g xs) t) = List.map g (pyFlat t)
  | .leaf _ => rfl
  | .node ts => by simpa [pyMap, pyFlat] using pyListFlat_pyListMap_map g ts
theorem pyListFlat_pyListMap_map {α β : Type} (g : α → β) :
    ∀ ts : PyTreeList (List α),
      pyListFlat (pyListMap (fun xs => List.map g xs) ts) =
        List.map g (pyListFlat ts)
  | .nil => rfl
  | .cons t ts => by
      simp [pyListMap, pyListFlat, pyFlat_pyMap_map g t,
        pyListFlat_pyListMap_map g ts]
end

mutual
/-- Mapping a function over every entry of every array preserves the shape. -/
theorem shapeOf_pyMap_map {α β : Type} (g : α → β) :
    ∀ t : PyTree (List α), shapeOf (pyMap (fun xs => List.map g xs) t) = shapeOf t
  | .leaf _ => by simp [pyMap, shapeOf_leaf]
  | .node ts => by
      simpa [pyMap, shapeOf_node] using shapeOfL_pyListMap_map g ts
theorem shapeOfL_pyListMap_map {α β : Type} (g : α → β) :
    ∀ ts : PyTreeList (List α),
      shapeOfL (pyListMap (fun xs => List.map g xs) ts) = shapeOfL ts
  | .nil => rfl
  | .cons t ts => by
      simp [pyListMap, shapeOfL_cons, shapeOf_pyMap_map g t,
        shapeOfL_pyListMap_map g ts]
end

/-! ## Unfolding lemmas for the three update functions -/

theorem metaSGDWD_update_eq {M : Type} (exp : ℚ → ℚ)
    (theta : MetaSGDWDTheta) (s : LOptState M) (grads : ParamTree)
    (ms : Option M) :
    MetaSGDWD.Opt.update exp theta s grads ms =
      (pyMap2
        (zipSame fun p g : ℚ => p - g * exp theta.log_lr - p * exp theta.log_wd)
        s.params grads).map
        (fun np => ⟨np, ms, s.iteration + 1⟩) := by
  cases hm : pyMap2
      (zipSame fun p g : ℚ => p - g * exp theta.log_lr - p * exp theta.log_wd)
      s.params grads with
  | none => simp [MetaSGDWD.Opt.update, hm]
  | some np => simp [MetaSGDWD.Opt.update, hm]

theorem perParamMLP_update_eq {M : Type} (self : PerParamMLP)
    (nn : ℚ → ℚ → ℚ → ℚ × ℚ) (exp : ℚ → ℚ) (s : PerParamState M)
    (grads : ParamTree) (ms : Option M) :
    PerParamMLP.Opt.update self nn exp s grads ms =
      (pyMap2 (zipSame fun m g : ℚ => m * self.decay + g * (1 - self.decay))
        s.momentums grads).bind
        (fun nm =>
          (pyMap3
            (zip3Same fun g m p : ℚ => p - PerParamMLP.netApply nn exp g m p)
            s.params grads nm).map
            (fun np => ⟨np, ms, s.iteration + 1, nm⟩)) := by
  cases hm : pyMap2
      (zipSame fun m g : ℚ => m * self.decay + g * (1 - self.decay))
      s.momentums grads with
  | none => simp [PerParamMLP.Opt.update, hm]
  | some nm =>
      cases hp : pyMap3
          (zip3Same fun g m p : ℚ => p - PerParamMLP.netApply nn exp g m p)
          s.params grads nm with
      | none => simp [PerParamMLP.Opt.update, hm, hp]
      | some np => simp [PerParamMLP.Opt.update, hm, hp]

theorem hparamController_update_none {M H : Type} (exp : ℚ → ℚ)
    (lstm : ℚ → H → ℚ × H) (linear : ℚ → ℚ)
    (s : HParamControllerInnerOptState M H) (grads : ParamTree)
    (ms : Option M) :
    HParamControllerLOPT.Opt.update exp lstm linear s grads none ms = none :=
  rfl

theorem hparamController_update_eq {M H : Type} (exp : ℚ → ℚ)
    (lstm : ℚ → H → ℚ × H) (linear : ℚ → ℚ)
    (s : HParamControllerInnerOptState M H) (grads : ParamTree) (l : ℚ)
    (ms : Option M) :
    HParamControllerLOPT.Opt.update exp lstm linear s grads (some l) ms =
      (pyMap2
        (zipSame fun p g : ℚ =>
          p - g * (forward_fn exp lstm linear s.rnn_hidden_state l).2)
        s.params grads).map
        (fun np =>
          ⟨np, ms, s.iteration + 1,
            (forward_fn exp lstm linear s.rnn_hidden_state l).1⟩) := by
  cases hm : pyMap2
      (zipSame fun p g : ℚ =>
        p - g * (forward_fn exp lstm linear s.rnn_hidden_state l).2)
      s.params grads with
  | none => simp [HParamControllerLOPT.Opt.update, hm]
  | some np => simp [HParamControllerLOPT.Opt.update, hm]

/-! ## Claims -/

/-- C1: for each of the three example optimizers (MetaSGDWD, PerParamMLP,
HParamControllerLOPT), the inner optimizer's `init(params, model_state)`
returns a state whose `iteration` field equals 0, and for every state `s`
and gradients `g`, every call of `update(s, g, ...)` that returns a state
returns one whose `iteration` field equals `s.iteration + 1`. -/
theorem C1_iteration_invariant :
    (∀ (M : Type) (params : ParamTree) (ms : Option M),
      (MetaSGDWD.Opt.init params ms).iteration = 0) ∧
    (∀ (M : Type) (params : ParamTree) (ms : Option M),
      (PerParamMLP.Opt.init params ms).iteration = 0) ∧
    (∀ (M RP H : Type) (theta : HParamTheta RP H) (params : ParamTree)
      (ms : Option M),
      (HParamControllerLOPT.Opt.init theta params ms).iteration = 0) ∧
    (∀ (M : Type) (exp : ℚ → ℚ) (theta : MetaSGDWDTheta) (s : LOptState M)
      (grads : ParamTree) (ms : Option M) (s' : LOptState M),
      MetaSGDWD.Opt.update exp theta s grads ms = some s' →
      s'.iteration = s.iteration + 1) ∧
    (∀ (M : Type) (self : PerParamMLP) (nn : ℚ → ℚ → ℚ → ℚ × ℚ)
      (exp : ℚ → ℚ) (s : PerParamState M) (grads : ParamTree) (ms : Option M)
      (s' : PerParamState M),
      PerParamMLP.Opt.update self nn exp s grads ms = some s' →
      s'.iteration = s.iteration + 1) ∧
    (∀ (M H : Type) (exp : ℚ → ℚ) (lstm : ℚ → H → ℚ × H) (linear : ℚ → ℚ)
      (s : HParamControllerInnerOptState M H) (grads : ParamTree)
      (loss : Option ℚ) (ms : Option M)
      (s' : HParamControllerInnerOptState M H),
      HParamControllerLOPT.Opt.update exp lstm linear s grads loss ms =
        some s' →
      s'.iteration = s.iteration + 1) := by
  refine ⟨fun _ _ _ => rfl, fun _ _ _ => rfl, fun _ _ _ _ _ _ => rfl,
    ?_, ?_, ?_⟩
  · intro M exp theta s grads ms s' h
    rw [metaSGDWD_update_eq] at h
    cases hm : pyMap2
        (zipSame fun p g : ℚ =>
          p - g * exp theta.log_lr - p * exp theta.log_wd) s.params grads with
    | none => rw [hm] at h; simp at h
    | some np =>
        rw [hm] at h
        simp only [Option.map_some'] at h
        cases h
        rfl
  · intro M self nn exp s grads ms s' h
    rw [perParamMLP_update_eq] at h
    cases hm : pyMap2
        (zipSame fun m g : ℚ => m * self.decay + g * (1 - self.decay))
        s.momentums grads with
    | none => rw [hm] at h; simp at h
    | some nm =>
        rw [hm] at h
        simp only [Option.some_bind] at h
        cases hp : pyMap3
            (zip3Same fun g m p : ℚ =>
              p - PerParamMLP.netApply nn exp g m p) s.params grads nm with
        | none => rw [hp] at h; simp at h
        | some np =>
            rw [hp] at h
            simp only [Option.map_some'] at h
            cases h
            rfl
  · intro M H exp lstm linear s grads loss ms s' h
    cases loss with
    | none => rw [hparamController_update_none] at h; simp at h
    | some l =>
        rw [hparamController_update_eq] at h
        cases hm : pyMap2
            (zipSame fun p g : ℚ =>
              p - g * (forward_fn exp lstm linear s.rnn_hidden_state l).2)
            s.params grads with
        | none => rw [hm] at h; simp at h
        | some np =>
            rw [hm] at h
            simp only [Option.map_some'] at h
            cases h
            rfl

/-- Witness for C1: the invariant evaluated on concrete states of each of
the three optimizers. -/
theorem C1_iteration_invariant_witness :
    (MetaSGDWD.Opt.init (.leaf [1]) (none : Option Unit)).iteration = 0 ∧
    (PerParamMLP.Opt.init (.leaf [1]) (none : Option Unit)).iteration = 0 ∧
    (HParamControllerLOPT.Opt.init (⟨(), ()⟩ : HParamTheta Unit Unit)
      (.leaf [1]) (none : Option Unit)).iteration = 0 ∧
    (MetaSGDWD.Opt.update id ⟨0, 0⟩ (⟨.leaf [1], none, 0⟩ : LOptState Unit)
        (.leaf [2]) none = some ⟨.leaf [1], none, 1⟩) ∧
    ((⟨.leaf [1], none, 1⟩ : LOptState Unit).iteration =
      (⟨.leaf [1], none, 0⟩ : LOptState Unit).iteration + 1) ∧
    (PerParamMLP.Opt.update ⟨9 / 10, 64⟩ (fun _ _ _ => (0, 0))
        (fun _ => 1) (⟨.leaf [1], none, 0, .leaf [0]⟩ : PerParamState Unit)
        (.leaf [0]) none =
      some ⟨.leaf [0], none, 1, .leaf [0]⟩) ∧
    ((⟨.leaf [0], none, 1, .leaf [0]⟩ : PerParamState Unit).iteration =
      (⟨.leaf [1], none, 0, .leaf [0]⟩ : PerParamState Unit).iteration + 1) ∧
    (HParamControllerLOPT.Opt.update id (fun _ _ => (0, ())) id
        (⟨.leaf [1], none, 0, ()⟩ : HParamControllerInnerOptState Unit Unit)
        (.leaf [2]) (some 1) none = some ⟨.leaf [1], none, 1, ()⟩) ∧
    ((⟨.leaf [1], none, 1, ()⟩ : HParamControllerInnerOptState Unit
        Unit).iteration =
      (⟨.leaf [1], none, 0, ()⟩ : HParamControllerInnerOptState Unit
        Unit).iteration + 1) :=
  ⟨C1_iteration_invariant.1 Unit (.leaf [1]) none,
   C1_iteration_invariant.2.1 Unit (.leaf [1]) none,
   C1_iteration_invariant.2.2.1 Unit Unit Unit ⟨(), ()⟩ (.leaf [1]) none,
   by norm_num [MetaSGDWD.Opt.update, pyMap2, zipSame],
   C1_iteration_invariant.2.2.2.1 Unit id ⟨0, 0⟩ ⟨.leaf [1], none, 0⟩
     (.leaf [2]) none ⟨.leaf [1], none, 1⟩
     (by norm_num [MetaSGDWD.Opt.update, pyMap2, zipSame]),
   by norm_num [PerParamMLP.Opt.update, PerParamMLP.netApply, pyMap2, pyMap3,
     zipSame, zip3Same],
   C1_iteration_invariant.2.2.2.2.1 Unit ⟨9 / 10, 64⟩ (fun _ _ _ => (0, 0))
     (fun _ => 1) ⟨.leaf [1], none, 0, .leaf [0]⟩ (.leaf [0]) none
     ⟨.leaf [0], none, 1, .leaf [0]⟩
     (by norm_num [PerParamMLP.Opt.update, PerParamMLP.netApply, pyMap2,
       pyMap3, zipSame, zip3Same]),
   by norm_num [HParamControllerLOPT.Opt.update, forward_fn, pyMap2, zipSame],
   C1_iteration_invariant.2.2.2.2.2 Unit Unit id (fun _ _ => (0, ())) id
     ⟨.leaf [1], none, 0, ()⟩ (.leaf [2]) (some 1) none
     ⟨.leaf [1], none, 1, ()⟩
     (by norm_num [HParamControllerLOPT.Opt.update, forward_fn, pyMap2,
       zipSame])⟩

/-- C8: `MetaSGDWD.init` is deterministic and independent of its `key`
argument: for any two keys (of any types), it returns the same theta, namely
`{"log_lr": log(initial_lr), "log_wd": log(initial_wd)}` built from the
constructor arguments only. -/
theorem C8_metasgdwd_init_key_independent :
    ∀ (self : MetaSGDWD) (log : ℚ → ℚ) (K1 K2 : Type) (k1 : K1) (k2 : K2),
      MetaSGDWD.init self log k1 = MetaSGDWD.init self log k2 ∧
      MetaSGDWD.init self log k1 =
        ⟨log self.initial_lr, log self.initial_wd⟩ :=
  fun _ _ _ _ _ _ => ⟨rfl, rfl⟩

/-- C9: for every params tree, `PerParamMLP._Opt.init(params)` returns a
state whose `params` field is the given params unchanged and whose
`momentums` field has the same tree structure and leaf shapes as `params`,
with every scalar entry zero. -/
theorem C9_perparam_init_zero_momentum :
    ∀ (M : Type) (params : ParamTree) (ms : Option M),
      (PerParamMLP.Opt.init params ms).params = params ∧
      shapeOf (PerParamMLP.Opt.init params ms).momentums = shapeOf params ∧
      pyFlat (PerParamMLP.Opt.init params ms).momentums =
        (pyFlat params).map (fun _ => (0 : ℚ)) := by
  intro M params ms
  exact ⟨rfl, shapeOf_pyMap_map _ params, pyFlat_pyMap_map _ params⟩

/-- C10: for every params tree, `HParamControllerLOPT._Opt.init(params)`
returns a state whose `rnn_hidden_state` equals
`theta["initial_rnn_hidden_state"]` exactly, with the given params stored
unchanged. -/
theorem C10_hparam_init_copies_hidden_state :
    ∀ (M RP H : Type) (theta : HParamTheta RP H) (params : ParamTree)
      (ms : Option M),
      (HParamControllerLOPT.Opt.init theta params ms).rnn_hidden_state =
        theta.initial_rnn_hidden_state ∧
      (HParamControllerLOPT.Opt.init theta params ms).params = params :=
  fun _ _ _ _ _ _ => ⟨rfl, rfl⟩

/-- C4: `MetaSGDWD`'s inner update is the stated single-line arithmetic:
for every state and gradients of the same tree structure, each returned
parameter leaf equals `p - g * exp(theta["log_lr"]) - p * exp(theta["log_wd"])`
for the corresponding old parameter leaf `p` and gradient leaf `g`; the
statement is universal in everything else (iteration, model_state, the
stored arrays), so no other quantity influences the new parameters. -/
theorem C4_metasgdwd_update_formula :
    ∀ (M : Type) (exp : ℚ → ℚ) (theta : MetaSGDWDTheta) (s : LOptState M)
      (grads : ParamTree) (ms : Option M),
      shapeOf s.params = shapeOf grads →
      ∃ s', MetaSGDWD.Opt.update exp theta s grads ms = some s' ∧
        pyFlat s'.params =
          List.zipWith
            (fun p g => p - g * exp theta.log_lr - p * exp theta.log_wd)
            (pyFlat s.params) (pyFlat grads) := by
  intro M exp theta s grads ms h
  obtain ⟨c, hc, _, hcf⟩ := pyMap2_zipSame_some
    (fun p g : ℚ => p - g * exp theta.log_lr - p * exp theta.log_wd)
    s.params grads h
  refine ⟨⟨c, ms, s.iteration + 1⟩, ?_, hcf⟩
  rw [metaSGDWD_update_eq, hc]
  rfl

/-- Witness for C4 at a concrete state and gradient tree. -/
theorem C4_metasgdwd_update_formula_witness :
    shapeOf (PyTree.leaf [(1 : ℚ)]) = shapeOf (PyTree.leaf [(2 : ℚ)]) ∧
    ∃ s' : LOptState Unit,
      MetaSGDWD.Opt.update id ⟨0, 0⟩ ⟨.leaf [1], none, 0⟩ (.leaf [2]) none =
        some s' ∧
      pyFlat s'.params =
        List.zipWith (fun p g => p - g * id (0 : ℚ) - p * id (0 : ℚ))
          (pyFlat (PyTree.leaf [(1 : ℚ)])) (pyFlat (PyTree.leaf [(2 : ℚ)])) :=
  ⟨rfl,
   C4_metasgdwd_update_formula Unit id ⟨0, 0⟩ ⟨.leaf [1], none, 0⟩
     (.leaf [2]) none rfl⟩

/-- C7: `HParamControllerLOPT`'s update is a recurrent hyperparameter
controller step: given a loss, it runs one pass of the RNN cell on the loss
(the single scalar of the `[1, 1]`-reshaped batch) and the stored
`rnn_hidden_state`, obtains `lr = exp(linear(output)) * 0.01`, sets every
new parameter leaf to `p - g * lr` with the same single `lr` for all
leaves, and stores the RNN's next hidden state in the returned state. -/
theorem C7_hparam_update_controller_step :
    ∀ (M H : Type) (exp : ℚ → ℚ) (lstm : ℚ → H → ℚ × H) (linear : ℚ → ℚ)
      (s : HParamControllerInnerOptState M H) (grads : ParamTree) (l : ℚ)
      (ms : Option M),
      shapeOf s.params = shapeOf grads →
      ∃ s', HParamControllerLOPT.Opt.update exp lstm linear s grads (some l)
          ms = some s' ∧
        s'.rnn_hidden_state = (lstm l s.rnn_hidden_state).2 ∧
        pyFlat s'.params =
          List.zipWith
            (fun p g =>
              p - g * (exp (linear (lstm l s.rnn_hidden_state).1) * (1 / 100)))
            (pyFlat s.params) (pyFlat grads) := by
  intro M H exp lstm linear s grads l ms h
  obtain ⟨c, hc, _, hcf⟩ := pyMap2_zipSame_some
    (fun p g : ℚ =>
      p - g * (forward_fn exp lstm linear s.rnn_hidden_state l).2)
    s.params grads h
  refine ⟨⟨c, ms, s.iteration + 1,
    (forward_fn exp lstm linear s.rnn_hidden_state l).1⟩, ?_, rfl, ?_⟩
  · rw [hparamController_update_eq, hc]
    rfl
  · exact hcf

/-- Witness for C7 at a concrete state, gradient tree and loss. -/
theorem C7_hparam_update_controller_step_witness :
    shapeOf (PyTree.leaf [(1 : ℚ)]) = shapeOf (PyTree.leaf [(2 : ℚ)]) ∧
    ∃ s' : HParamControllerInnerOptState Unit Unit,
      HParamControllerLOPT.Opt.update id (fun _ _ => (0, ())) id
        ⟨.leaf [1], none, 0, ()⟩ (.leaf [2]) (some 1) none = some s' ∧
      s'.rnn_hidden_state = ((fun (_ : ℚ) (_ : Unit) => ((0 : ℚ), ())) 1 ()).2 ∧
      pyFlat s'.params =
        List.zipWith
          (fun p g => p - g *
            (id (id ((fun (_ : ℚ) (_ : Unit) => ((0 : ℚ), ())) 1 ()).1) *
              (1 / 100)))
          (pyFlat (PyTree.leaf [(1 : ℚ)])) (pyFlat (PyTree.leaf [(2 : ℚ)])) :=
  ⟨rfl,
   C7_hparam_update_controller_step Unit Unit id (fun _ _ => (0, ())) id
     ⟨.leaf [1], none, 0, ()⟩ (.leaf [2]) 1 none rfl⟩

/-- C3 counterexample: the claim fails for `MetaSGDWD`'s state record
`LOptState`, which has only the three common fields: two `LOptState`s that
agree on `params`, `model_state` and `iteration` are equal, so there is no
additional architecture-specific field carrying further information. -/
theorem C3_counterexample_no_extra_field :
    ¬ ∃ s t : LOptState Unit, s.params = t.params ∧
      s.model_state = t.model_state ∧ s.iteration = t.iteration ∧ s ≠ t := by
  rintro ⟨s, t, hp, hm, hi, hne⟩
  apply hne
  cases s
  cases t
  simp only [LOptState.mk.injEq]
  exact ⟨hp, hm, hi⟩

/-- C3 (amended): each of the three example state record types contains the
fields `params`, `model_state` and `iteration`; `PerParamState` and
`HParamControllerInnerOptState` additionally carry an architecture-specific
extra field (`momentums`, `rnn_hidden_state`) holding information beyond
the three common fields, while `MetaSGDWD`'s `LOptState` consists of
exactly the three common fields and has no extra field. -/
theorem C3_amended_state_record_fields :
    (∀ s : LOptState Unit, s = ⟨s.params, s.model_state, s.iteration⟩) ∧
    (∀ s : PerParamState Unit,
      s = ⟨s.params, s.model_state, s.iteration, s.momentums⟩) ∧
    (∀ s : HParamControllerInnerOptState Unit Bool,
      s = ⟨s.params, s.model_state, s.iteration, s.rnn_hidden_state⟩) ∧
    (∃ s t : PerParamState Unit, s.params = t.params ∧
      s.model_state = t.model_state ∧ s.iteration = t.iteration ∧ s ≠ t) ∧
    (∃ s t : HParamControllerInnerOptState Unit Bool, s.params = t.params ∧
      s.model_state = t.model_state ∧ s.iteration = t.iteration ∧ s ≠ t) := by
  refine ⟨fun s => by cases s; rfl, fun s => by cases s; rfl,
    fun s => by cases s; rfl, ?_, ?_⟩
  · refine ⟨⟨.leaf [], none, 0, .leaf []⟩, ⟨.leaf [], none, 0, .node .nil⟩,
      rfl, rfl, rfl, ?_⟩
    intro h
    simp only [PerParamState.mk.injEq] at h
    exact absurd h.2.2.2 (by simp)
  · refine ⟨⟨.leaf [], none, 0, false⟩, ⟨.leaf [], none, 0, true⟩,
      rfl, rfl, rfl, ?_⟩
    intro h
    simp only [HParamControllerInnerOptState.mk.injEq] at h
    exact absurd h.2.2.2 (by simp)

/-- C2 counterexample: `HParamControllerLOPT._Opt.update` called with only
the state and the gradients (`loss` left at its default `None`) hits the
`assert loss is not None` error branch: on a concrete well-formed state the
embedded update fails rather than returning a next state. -/
theorem C2_counterexample_assert_reachable :
    HParamControllerLOPT.Opt.update id (fun _ _ => (0, ())) id
      (⟨.leaf [1], none, 0, ()⟩ : HParamControllerInnerOptState Unit Unit)
      (.leaf [1]) none none = none := rfl

/-- C2 (amended): `MetaSGDWD` and `PerParamMLP` implement
`update(state, grads) -> state` with no reachable assertion or error
branch: for every state and structurally matching gradients, calling update
with only the state and the gradients (all other arguments at their `None`
defaults) succeeds and returns the next state.  `HParamControllerLOPT`'s
update instead asserts that a loss is supplied, and fails whenever it is
called with only the state and the gradients. -/
theorem C2_amended_update_no_failure :
    (∀ (M : Type) (exp : ℚ → ℚ) (theta : MetaSGDWDTheta) (s : LOptState M)
      (grads : ParamTree), shapeOf s.params = shapeOf grads →
      ∃ s', MetaSGDWD.Opt.update exp theta s grads none = some s') ∧
    (∀ (M : Type) (self : PerParamMLP) (nn : ℚ → ℚ → ℚ → ℚ × ℚ)
      (exp : ℚ → ℚ) (s : PerParamState M) (grads : ParamTree),
      shapeOf s.params = shapeOf grads →
      shapeOf s.momentums = shapeOf grads →
      ∃ s', PerParamMLP.Opt.update self nn exp s grads none = some s') ∧
    (∀ (M H : Type) (exp : ℚ → ℚ) (lstm : ℚ → H → ℚ × H) (linear : ℚ → ℚ)
      (s : HParamControllerInnerOptState M H) (grads : ParamTree),
      HParamControllerLOPT.Opt.update exp lstm linear s grads none none =
        none) := by
  refine ⟨?_, ?_, fun _ _ _ _ _ _ _ => rfl⟩
  · intro M exp theta s grads h
    obtain ⟨c, hc, _, _⟩ := pyMap2_zipSame_some
      (fun p g : ℚ => p - g * exp theta.log_lr - p * exp theta.log_wd)
      s.params grads h
    refine ⟨⟨c, none, s.iteration + 1⟩, ?_⟩
    rw [metaSGDWD_update_eq, hc]
    rfl
  · intro M self nn exp s grads hp hm
    obtain ⟨nm, hnm, hnms, _⟩ := pyMap2_zipSame_some
      (fun m g : ℚ => m * self.decay + g * (1 - self.decay))
      s.momentums grads hm
    obtain ⟨np, hnp, _, _⟩ := pyMap3_zip3Same_some
      (fun g m p : ℚ => p - PerParamMLP.netApply nn exp g m p)
      s.params grads nm hp (hnms.trans hm).symm
    refine ⟨⟨np, none, s.iteration + 1, nm⟩, ?_⟩
    rw [perParamMLP_update_eq, hnm, Option.some_bind, hnp]
    rfl

/-- Witness for C2 (amended) at concrete states and gradients. -/
theorem C2_amended_update_no_failure_witness :
    shapeOf (PyTree.leaf [(3 : ℚ)]) = shapeOf (PyTree.leaf [(4 : ℚ)]) ∧
    (∃ s' : LOptState Unit,
      MetaSGDWD.Opt.update id ⟨1, 1⟩ ⟨.leaf [3], none, 0⟩ (.leaf [4]) none =
        some s') ∧
    (∃ s' : PerParamState Unit,
      PerParamMLP.Opt.update ⟨9 / 10, 64⟩ (fun _ _ _ => (1, 1)) id
        ⟨.leaf [3], none, 0, .leaf [0]⟩ (.leaf [4]) none = some s') ∧
    HParamControllerLOPT.Opt.update id (fun _ _ => (0, ())) id
      (⟨.leaf [3], none, 0, ()⟩ : HParamControllerInnerOptState Unit Unit)
      (.leaf [4]) none none = none :=
  ⟨rfl,
   C2_amended_update_no_failure.1 Unit id ⟨1, 1⟩ ⟨.leaf [3], none, 0⟩
     (.leaf [4]) rfl,
   C2_amended_update_no_failure.2.1 Unit ⟨9 / 10, 64⟩ (fun _ _ _ => (1, 1))
     id ⟨.leaf [3], none, 0, .leaf [0]⟩ (.leaf [4]) rfl rfl,
   C2_amended_update_no_failure.2.2 Unit Unit id (fun _ _ => (0, ())) id
     ⟨.leaf [3], none, 0, ()⟩ (.leaf [4])⟩

/-- C5: in every example, `model_state` is opaque pass-through data: `init`
stores its `model_state` argument in the returned state unchanged; `update`
stores its own `model_state` argument in the returned state unchanged; and
`update` never reads the input state's `model_state` — replacing it by any
other value leaves the result of `update` unchanged, so it does not carry
over to the output state unless passed again as an argument. -/
theorem C5_model_state_passthrough :
    (∀ (M : Type) (params : ParamTree) (ms : Option M),
      (MetaSGDWD.Opt.init params ms).model_state = ms) ∧
    (∀ (M : Type) (params : ParamTree) (ms : Option M),
      (PerParamMLP.Opt.init params ms).model_state = ms) ∧
    (∀ (M RP H : Type) (theta : HParamTheta RP H) (params : ParamTree)
      (ms : Option M),
      (HParamControllerLOPT.Opt.init theta params ms).model_state = ms) ∧
    (∀ (M : Type) (exp : ℚ → ℚ) (theta : MetaSGDWDTheta) (s : LOptState M)
      (grads : ParamTree) (ms : Option M) (s' : LOptState M),
      MetaSGDWD.Opt.update exp theta s grads ms = some s' →
      s'.model_state = ms) ∧
    (∀ (M : Type) (self : PerParamMLP) (nn : ℚ → ℚ → ℚ → ℚ × ℚ)
      (exp : ℚ → ℚ) (s : PerParamState M) (grads : ParamTree) (ms : Option M)
      (s' : PerParamState M),
      PerParamMLP.Opt.update self nn exp s grads ms = some s' →
      s'.model_state = ms) ∧
    (∀ (M H : Type) (exp : ℚ → ℚ) (lstm : ℚ → H → ℚ × H) (linear : ℚ → ℚ)
      (s : HParamControllerInnerOptState M H) (grads : ParamTree)
      (loss : Option ℚ) (ms : Option M)
      (s' : HParamControllerInnerOptState M H),
      HParamControllerLOPT.Opt.update exp lstm linear s grads loss ms =
        some s' →
      s'.model_state = ms) ∧
    (∀ (M : Type) (exp : ℚ → ℚ) (theta : MetaSGDWDTheta) (s : LOptState M)
      (ms0 : Option M) (grads : ParamTree) (ms : Option M),
      MetaSGDWD.Opt.update exp theta ⟨s.params, ms0, s.iteration⟩ grads ms =
        MetaSGDWD.Opt.update exp theta s grads ms) ∧
    (∀ (M : Type) (self : PerParamMLP) (nn : ℚ → ℚ → ℚ → ℚ × ℚ)
      (exp : ℚ → ℚ) (s : PerParamState M) (ms0 : Option M)
      (grads : ParamTree) (ms : Option M),
      PerParamMLP.Opt.update self nn exp
          ⟨s.params, ms0, s.iteration, s.momentums⟩ grads ms =
        PerParamMLP.Opt.update self nn exp s grads ms) ∧
    (∀ (M H : Type) (exp : ℚ → ℚ) (lstm : ℚ → H → ℚ × H) (linear : ℚ → ℚ)
      (s : HParamControllerInnerOptState M H) (ms0 : Option M)
      (grads : ParamTree) (loss : Option ℚ) (ms : Option M),
      HParamControllerLOPT.Opt.update exp lstm linear
          ⟨s.params, ms0, s.iteration, s.rnn_hidden_state⟩ grads loss ms =
        HParamControllerLOPT.Opt.update exp lstm linear s grads loss ms) := by
  refine ⟨fun _ _ _ => rfl, fun _ _ _ => rfl, fun _ _ _ _ _ _ => rfl,
    ?_, ?_, ?_, ?_, ?_, ?_⟩
  · intro M exp theta s grads ms s' h
    rw [metaSGDWD_update_eq] at h
    cases hm : pyMap2
        (zipSame fun p g : ℚ =>
          p - g * exp theta.log_lr - p * exp theta.log_wd) s.params grads with
    | none => rw [hm] at h; simp at h
    | some np => rw [hm] at h; cases h; rfl
  · intro M self nn exp s grads ms s' h
    rw [perParamMLP_update_eq] at h
    cases hm : pyMap2
        (zipSame fun m g : ℚ => m * self.decay + g * (1 - self.decay))
        s.momentums grads with
    | none => rw [hm] at h; simp at h
    | some nm =>
        rw [hm, Option.some_bind] at h
        cases hp : pyMap3
            (zip3Same fun g m p : ℚ =>
              p - PerParamMLP.netApply nn exp g m p) s.params grads nm with
        | none => rw [hp] at h; simp at h
        | some np => rw [hp] at h; cases h; rfl
  · intro M H exp lstm linear s grads loss ms s' h
    cases loss with
    | none => rw [hparamController_update_none] at h; simp at h
    | some l =>
        rw [hparamController_update_eq] at h
        cases hm : pyMap2
            (zipSame fun p g : ℚ =>
              p - g * (forward_fn exp lstm linear s.rnn_hidden_state l).2)
            s.params grads with
        | none => rw [hm] at h; simp at h
        | some np => rw [hm] at h; cases h; rfl
  · intro M exp theta s ms0 grads ms
    rw [metaSGDWD_update_eq, metaSGDWD_update_eq]
  · intro M self nn exp s ms0 grads ms
    rw [perParamMLP_update_eq, perParamMLP_update_eq]
  · intro M H exp lstm linear s ms0 grads loss ms
    cases loss with
    | none => rfl
    | some l =>
        rw [hparamController_update_eq,
          hparamController_update_eq]

/-- Witness for C5: the pass-through property evaluated on concrete calls
of each of the three optimizers, with a non-`None` model_state argument. -/
theorem C5_model_state_passthrough_witness :
    (MetaSGDWD.Opt.init (.leaf [5]) (some true : Option Bool)).model_state =
      some true ∧
    (MetaSGDWD.Opt.update id ⟨0, 0⟩
        (⟨.leaf [5], some false, 0⟩ : LOptState Bool) (.leaf [6])
        (some true) =
      some ⟨.leaf [5], some true, 1⟩) ∧
    ((⟨.leaf [5], some true, 1⟩ : LOptState Bool).model_state = some true) ∧
    (PerParamMLP.Opt.update ⟨9 / 10, 64⟩ (fun _ _ _ => (0, 0))
        (fun _ => 1) (⟨.leaf [5], some false, 0, .leaf [0]⟩ :
          PerParamState Bool) (.leaf [0]) (some true) =
      some ⟨.leaf [0], some true, 1, .leaf [0]⟩) ∧
    ((⟨.leaf [0], some true, 1, .leaf [0]⟩ :
        PerParamState Bool).model_state = some true) ∧
    (HParamControllerLOPT.Opt.update id (fun _ _ => (0, ())) id
        (⟨.leaf [5], some false, 0, ()⟩ :
          HParamControllerInnerOptState Bool Unit) (.leaf [6]) (some 1)
        (some true) = some ⟨.leaf [5], some true, 1, ()⟩) ∧
    ((⟨.leaf [5], some true, 1, ()⟩ :
        HParamControllerInnerOptState Bool Unit).model_state = some true) ∧
    (MetaSGDWD.Opt.update id ⟨0, 0⟩
        (⟨(⟨.leaf [5], some false, 0⟩ : LOptState Bool).params, some true,
          (⟨.leaf [5], some false, 0⟩ : LOptState Bool).iteration⟩ :
          LOptState Bool) (.leaf [6]) none =
      MetaSGDWD.Opt.update id ⟨0, 0⟩
        (⟨.leaf [5], some false, 0⟩ : LOptState Bool) (.leaf [6]) none) :=
  ⟨C5_model_state_passthrough.1 Bool (.leaf [5]) (some true),
   by norm_num [MetaSGDWD.Opt.update, pyMap2, zipSame],
   C5_model_state_passthrough.2.2.2.1 Bool id ⟨0, 0⟩
     ⟨.leaf [5], some false, 0⟩ (.leaf [6]) (some true)
     ⟨.leaf [5], some true, 1⟩
     (by norm_num [MetaSGDWD.Opt.update, pyMap2, zipSame]),
   by norm_num [PerParamMLP.Opt.update, PerParamMLP.netApply, pyMap2, pyMap3,
     zipSame, zip3Same],
   C5_model_state_passthrough.2.2.2.2.1 Bool ⟨9 / 10, 64⟩
     (fun _ _ _ => (0, 0)) (fun _ => 1) ⟨.leaf [5], some false, 0, .leaf [0]⟩
     (.leaf [0]) (some true) ⟨.leaf [0], some true, 1, .leaf [0]⟩
     (by norm_num [PerParamMLP.Opt.update, PerParamMLP.netApply, pyMap2,
       pyMap3, zipSame, zip3Same]),
   by norm_num [HParamControllerLOPT.Opt.update, forward_fn, pyMap2, zipSame],
   C5_model_state_passthrough.2.2.2.2.2.1 Bool Unit id (fun _ _ => (0, ()))
     id ⟨.leaf [5], some false, 0, ()⟩ (.leaf [6]) (some 1) (some true)
     ⟨.leaf [5], some true, 1, ()⟩
     (by norm_num [HParamControllerLOPT.Opt.update, forward_fn, pyMap2,
       zipSame]),
   C5_model_state_passthrough.2.2.2.2.2.2.1 Bool id ⟨0, 0⟩
     ⟨.leaf [5], some false, 0⟩ (some true) (.leaf [6]) none⟩

/-- C6: in the notebook's `PerParamMLP._Opt.update`, the second
`jax.tree_map(_update_one, opt_state.params, grads, next_moms)` binds
`_update_one`'s parameters positionally, so `g` receives the parameter
leaf, `m` the gradient leaf and `p` the updated-momentum leaf — contrary
to the function's own variable naming (`p` the parameter, `return p - step`)
and to the claimed per-leaf formula `p - net(theta, g, m1, p)`.  At the
concrete state params `{a: 1.0}`, momentum `{a: 0.0}`, gradients `{a: 0.0}`
and a network that outputs `(0, 0)` (hence a zero step), the code returns
new params `{a: 0.0}` — the updated momentum — while the claimed formula
yields `{a: 1.0}` — the unchanged parameter. -/
theorem C6_update_one_argument_swap :
    (PerParamMLP.Opt.update ⟨9 / 10, 64⟩ (fun _ _ _ => (0, 0))
        (fun _ => 1) (⟨.leaf [1], none, 0, .leaf [0]⟩ : PerParamState Unit)
        (.leaf [0]) none =
      some ⟨.leaf [0], none, 1, .leaf [0]⟩) ∧
    (List.zipWith3
        (fun p g m =>
          p - PerParamMLP.netApply (fun _ _ _ => ((0 : ℚ), (0 : ℚ)))
            (fun _ => 1) g m p)
        [1] [0] [0] = [1]) ∧
    ([(0 : ℚ)] ≠ [1]) := by
  refine ⟨?_, ?_, ?_⟩
  · norm_num [PerParamMLP.Opt.update, PerParamMLP.netApply, pyMap2, pyMap3,
      zipSame, zip3Same]
  · norm_num [List.zipWith3, PerParamMLP.netApply]
  · norm_num
